import Mathlib

/-!
# Verification of the SwiftPQ C shim layer

This file gives a shallow embedding, in Lean 4, of the C sources of the
SwiftPQ repository:

* `Sources/CLibECPG/shim.h` — inline wrappers around the ECPG `pgtypes`
  date/timestamp/interval routines (`_SwiftPQ_PGTYPES_date_from_cString`,
  `_SwiftPQ_PGTYPES_date_from_ymd`, `_SwiftPQ_PGTYPES_date_to_ymd`,
  `_SwiftPQ_PGTYPES_date_to_cString`, `_SwiftPQ_PGTYPES_free_cString`,
  `_SwiftPQ_PGTYPES_interval_from_cString`,
  `_SwiftPQ_PGTYPES_interval_to_cString`,
  `_SwiftPQ_PGTYPES_timestamp_from_cString`,
  `_SwiftPQ_PGTYPES_timestamp_to_cString`);
* `Sources/CPostgreSQL/shim.c` — configuration accessors
  (`_SwiftPQ_get_FLOAT8PASSBYVAL`, `_SwiftPQ_get_NAMEDATALEN`) and the
  numeric sign predicates (`_SwiftPQ_numericSignIsPositive`,
  `_SwiftPQ_numericSignIsNegative`, `_SwiftPQ_numericSignIsNaN`).

The referenced PostgreSQL/ECPG library routines (`PGTYPESdate_mdyjul`,
`PGTYPESdate_julmdy`, the `PGTYPES…_from_asc` parsers, the `…_to_asc`
formatters) and the `pgtypes` constants are not part of the repository's
sources; where a claim depends on them they are modelled from the
specification, as indicated by the `Modelled from the spec:` doc comments.

C machine integers are embedded as `Int` with explicit two's-complement
reduction (`toInt32`) at the points where the C code performs a narrowing
cast; C `int` division/remainder (truncation towards zero) is `Int.tdiv` /
`Int.tmod`.
-/

set_option linter.unusedVariables false

/-- Two's-complement narrowing of an integer to a signed 32-bit value,
modelling C casts such as `(int32_t)pgDate` and `(int)(jd + …)`. -/
def toInt32 (x : Int) : Int :=
  (x + 2147483648) % 4294967296 - 2147483648

/-- Modelled from the spec: PostgreSQL's `date2j` (the Julian-day conversion
underlying `PGTYPESdate_mdyjul`; §4.1 "converts year/month/day to an absolute
day count via a Julian-day intermediate", "matching PostgreSQL's exact
encoding rules").  The function body is the reference implementation's
arithmetic on C `int`s, with C division written `Int.tdiv`. -/
def date2j (y m d : Int) : Int :=
  let m2 := if 2 < m then m + 1 else m + 13
  let y2 := if 2 < m then y + 4800 else y + 4799
  let century := y2.tdiv 100
  y2 * 365 - 32167 + y2.tdiv 4 - century + century.tdiv 4 + (7834 * m2).tdiv 256 + d

/-- Modelled from the spec: PostgreSQL's `j2date` (the inverse Julian-day
conversion underlying `PGTYPESdate_julmdy`; §4.1 `toCalendar` "inverse of the
above").  The reference implementation computes on C `unsigned int`s; for the
in-range Julian days considered by the theorems below every intermediate value
fits in 32 bits and is non-negative, so the unsigned arithmetic coincides with
plain integer arithmetic with truncating division. -/
def j2date (jd : Int) : Int × Int × Int :=
  let julian := jd + 32044
  let quad := julian.tdiv 146097
  let extra := (julian - quad * 146097) * 4 + 3
  let julian2 := julian + 60 + quad * 3 + extra.tdiv 146097
  let quad2 := julian2.tdiv 1461
  let julian3 := julian2 - quad2 * 1461
  let y := (julian3 * 4).tdiv 1461
  let julian4 := (if y ≠ 0 then (julian3 + 305).tmod 365 else (julian3 + 306).tmod 366) + 123
  let y2 := y + quad2 * 4
  let year := y2 - 4800
  let quad3 := (julian4 * 2141).tdiv 65536
  let day := julian4 - (7834 * quad3).tdiv 256
  let month := (quad3 + 10).tmod 12 + 1
  (year, month, day)

/-- Euclidean-division restatement of `date2j`, used inside proofs (for the
argument ranges considered, i.e. all division operands non-negative, it agrees
with `date2j`; see `date2j_eq_E`). -/
def date2jE (y m d : Int) : Int :=
  let m2 := if 2 < m then m + 1 else m + 13
  let y2 := if 2 < m then y + 4800 else y + 4799
  let century := y2 / 100
  y2 * 365 - 32167 + y2 / 4 - century + century / 4 + 7834 * m2 / 256 + d

/-- Euclidean-division restatement of `j2date`, used inside proofs (for
non-negative Julian days it agrees with `j2date`; see `j2date_eq_E`). -/
def j2dateE (jd : Int) : Int × Int × Int :=
  let julian := jd + 32044
  let quad := julian / 146097
  let extra := (julian - quad * 146097) * 4 + 3
  let julian2 := julian + 60 + quad * 3 + extra / 146097
  let quad2 := julian2 / 1461
  let julian3 := julian2 - quad2 * 1461
  let y := julian3 * 4 / 1461
  let julian4 := (if y ≠ 0 then (julian3 + 305) % 365 else (julian3 + 306) % 366) + 123
  let y2 := y + quad2 * 4
  let year := y2 - 4800
  let quad3 := julian4 * 2141 / 65536
  let day := julian4 - 7834 * quad3 / 256
  let month := (quad3 + 10) % 12 + 1
  (year, month, day)

theorem date2j_eq_E (y m d : Int) (hy : -4799 ≤ y) (hm : 0 ≤ m) :
    date2j y m d = date2jE y m d := by
  simp only [date2j, date2jE]
  split_ifs with h <;> simp (disch := omega) only [Int.tdiv_eq_ediv]

theorem j2date_eq_E (jd : Int) (h : 0 ≤ jd) : j2date jd = j2dateE jd := by
  simp only [j2date, j2dateE]
  simp (disch := omega) only [Int.tdiv_eq_ediv, Int.tmod_eq_emod]

/-- Modelled from the spec: ECPG's `PGTYPESdate_mdyjul` (called by the shim's
`_SwiftPQ_PGTYPES_date_from_ymd`): the day count is the Julian day of the
given month/day/year triple relative to the 2000-01-01 epoch (§3 `DayCount`,
"days since 2000-01-01"). `mdy` is the C array `[month, day, year]`. -/
def PGTYPESdate_mdyjul (mdy : Int × Int × Int) : Int :=
  date2j mdy.2.2 mdy.1 mdy.2.1 - date2j 2000 1 1

/-- Modelled from the spec: ECPG's `PGTYPESdate_julmdy` (called by the shim's
`_SwiftPQ_PGTYPES_date_to_ymd`): the inverse conversion, shifting by the
2000-01-01 epoch before decoding; the intermediate C `(int)` cast is
`toInt32`.  Returns the C array `[month, day, year]`. -/
def PGTYPESdate_julmdy (jd : Int) : Int × Int × Int :=
  let r := j2date (toInt32 (jd + date2j 2000 1 1))
  (r.2.1, r.2.2, r.1)

/-- The C struct `_SwiftPQ_PGTYPES_YMD` (CLibECPG/shim.h lines 25-29). -/
structure _SwiftPQ_PGTYPES_YMD where
  year : Int
  month : Int
  day : Int
deriving DecidableEq, Repr

/-- `_SwiftPQ_PGTYPES_date_from_ymd` (CLibECPG/shim.h lines 43-49): builds
`mdy = {month, day, year}`, calls `PGTYPESdate_mdyjul`, and stores the result
through an `(int32_t)` cast. -/
def _SwiftPQ_PGTYPES_date_from_ymd (ymd : _SwiftPQ_PGTYPES_YMD) : Int :=
  toInt32 (PGTYPESdate_mdyjul (ymd.month, ymd.day, ymd.year))

/-- `_SwiftPQ_PGTYPES_date_to_ymd` (CLibECPG/shim.h lines 51-58): calls
`PGTYPESdate_julmdy` and unpacks the `mdy` array into the `YMD` struct. -/
def _SwiftPQ_PGTYPES_date_to_ymd (pgDate : Int) : _SwiftPQ_PGTYPES_YMD :=
  let mdy := PGTYPESdate_julmdy pgDate
  ⟨mdy.2.2, mdy.1, mdy.2.1⟩

set_option maxHeartbeats 4000000 in
theorem roundtripE (jd : Int) (h0 : 0 ≤ jd) (h1 : jd ≤ 2147483647) :
    date2jE (j2dateE jd).1 (j2dateE jd).2.1 (j2dateE jd).2.2 = jd := by
  simp only [j2dateE, date2jE]
  generalize hK : jd + 32044 = K at *
  generalize hq : K / 146097 = quad
  generalize hc : ((K - quad * 146097) * 4 + 3) / 146097 = c
  generalize hJ2 : K + 60 + quad * 3 + c = J2
  generalize hq2 : J2 / 1461 = quad2
  generalize hj3 : J2 - quad2 * 1461 = j3
  generalize hy : j3 * 4 / 1461 = y
  have hj3b : 0 ≤ j3 ∧ j3 ≤ 1460 := by omega
  have hyb : 0 ≤ y ∧ y ≤ 3 := by omega
  have hcb : c = 0 ∨ c = 1 ∨ c = 2 ∨ c = 3 := by omega
  have hsq : quad2 = 100 * quad + (K - quad * 146097 + c + 60) / 1461 := by omega
  generalize hs : (K - quad * 146097 + c + 60) / 1461 = s at hsq
  subst hsq
  have hj3eq : j3 = K - quad * 146097 + c + 60 - 1461 * s := by omega
  have hsnn : 0 ≤ s := by omega
  by_cases hcase : y ≠ 0
  · rw [if_pos hcase]
    have hj3min : 366 ≤ j3 := by omega
    have hsw : (c = 0 → s ≤ 24) ∧ (c = 1 → 25 ≤ s ∧ s ≤ 49) ∧
        (c = 2 → 50 ≤ s ∧ s ≤ 74) ∧ (c = 3 → 75 ≤ s ∧ s ≤ 99) := by
      refine ⟨fun h => ?_, fun h => ?_, fun h => ?_, fun h => ?_⟩ <;> subst h <;> omega
    generalize hJ : (j3 + 305) % 365 + 123 = J
    generalize hq3 : J * 2141 / 65536 = q3
    have hJb : 123 ≤ J ∧ J ≤ 487 := by omega
    have hq3b : 4 ≤ q3 ∧ q3 ≤ 15 := by omega
    have hmod : (q3 + 10) % 12 = q3 - 2 ∨ (q3 + 10) % 12 = q3 - 14 := by omega
    rcases hmod with hm | hm <;> rw [hm] <;> split_ifs with hmon
    · have e1 : (y + (100 * quad + s) * 4 - 4800 + 4800) / 4 =
          (4 * s + y) / 4 + quad * 100 := by omega
      have e2 : (y + (100 * quad + s) * 4 - 4800 + 4800) / 100 =
          (4 * s + y) / 100 + quad * 4 := by omega
      have hg : (4 * s + y) / 4 = s := by omega
      have hi : (4 * s + y) / 100 = c := by
        rcases hcb with rfl | rfl | rfl | rfl <;> omega
      have e4 : (c + quad * 4) / 4 = quad := by omega
      rw [e1, e2, hg, hi, e4, show q3 - 2 + 1 + 1 = q3 from by ring]
      omega
    · omega
    · omega
    · have f1 : (y + (100 * quad + s) * 4 - 4800 + 4799) / 4 =
          (4 * s + y - 1) / 4 + quad * 100 := by omega
      have f2 : (y + (100 * quad + s) * 4 - 4800 + 4799) / 100 =
          (4 * s + y - 1) / 100 + quad * 4 := by omega
      have hg : (4 * s + y - 1) / 4 = s := by omega
      have hi : (4 * s + y - 1) / 100 = c := by
        rcases hcb with rfl | rfl | rfl | rfl <;> omega
      have e4 : (c + quad * 4) / 4 = quad := by omega
      rw [f1, f2, hg, hi, e4, show q3 - 14 + 1 + 13 = q3 from by ring]
      omega
  · rw [if_neg hcase]
    have hj3max : j3 ≤ 365 := by omega
    generalize hJ : (j3 + 306) % 366 + 123 = J
    generalize hq3 : J * 2141 / 65536 = q3
    have hJb : 123 ≤ J ∧ J ≤ 488 := by omega
    have hq3b : 4 ≤ q3 ∧ q3 ≤ 15 := by omega
    have hmod : (q3 + 10) % 12 = q3 - 2 ∨ (q3 + 10) % 12 = q3 - 14 := by omega
    rcases hmod with hm | hm <;> rw [hm] <;> split_ifs with hmon
    · have hq3u : q3 ≤ 13 := by omega
      have hJw : J ≤ 428 := by omega
      have hd0 : (j3 + 306) / 366 = 0 ∨ (j3 + 306) / 366 = 1 := by omega
      have hJeq : J = j3 + 429 - 366 * ((j3 + 306) / 366) := by omega
      have hj3min : 60 ≤ j3 := by rcases hd0 with h | h <;> omega
      have hsw : (c = 0 → s ≤ 24) ∧ (c = 1 → 25 ≤ s ∧ s ≤ 49) ∧
          (c = 2 → 50 ≤ s ∧ s ≤ 74) ∧ (c = 3 → 75 ≤ s ∧ s ≤ 99) := by
        refine ⟨fun h => ?_, fun h => ?_, fun h => ?_, fun h => ?_⟩ <;> subst h <;> omega
      have e1 : (y + (100 * quad + s) * 4 - 4800 + 4800) / 4 =
          (4 * s + y) / 4 + quad * 100 := by omega
      have e2 : (y + (100 * quad + s) * 4 - 4800 + 4800) / 100 =
          (4 * s + y) / 100 + quad * 4 := by omega
      have hg : (4 * s + y) / 4 = s := by omega
      have hi : (4 * s + y) / 100 = c := by
        rcases hcb with rfl | rfl | rfl | rfl <;> omega
      have e4 : (c + quad * 4) / 4 = quad := by omega
      rw [e1, e2, hg, hi, e4, show q3 - 2 + 1 + 1 = q3 from by ring]
      omega
    · omega
    · omega
    · have hq3l : 14 ≤ q3 := by omega
      have hJw : 429 ≤ J := by omega
      have hd0 : (j3 + 306) / 366 = 0 ∨ (j3 + 306) / 366 = 1 := by omega
      have hJeq : J = j3 + 429 - 366 * ((j3 + 306) / 366) := by omega
      have hj3max2 : j3 ≤ 59 := by rcases hd0 with h | h <;> omega
      have hsw : (c = 0 → s ≤ 25) ∧ (c = 1 → 26 ≤ s ∧ s ≤ 50) ∧
          (c = 2 → 51 ≤ s ∧ s ≤ 75) ∧ (c = 3 → 76 ≤ s ∧ s ≤ 100) := by
        refine ⟨fun h => ?_, fun h => ?_, fun h => ?_, fun h => ?_⟩ <;> subst h <;> omega
      have f1 : (y + (100 * quad + s) * 4 - 4800 + 4799) / 4 =
          (4 * s + y - 1) / 4 + quad * 100 := by omega
      have f2 : (y + (100 * quad + s) * 4 - 4800 + 4799) / 100 =
          (4 * s + y - 1) / 100 + quad * 4 := by omega
      have hg : (4 * s + y - 1) / 4 = s - 1 := by omega
      have hi : (4 * s + y - 1) / 100 = c := by
        rcases hcb with rfl | rfl | rfl | rfl <;> omega
      have e4 : (c + quad * 4) / 4 = quad := by omega
      rw [f1, f2, hg, hi, e4, show q3 - 14 + 1 + 13 = q3 from by ring]
      omega

theorem j2dateE_year_month_bounds (jd : Int) (h : 0 ≤ jd) :
    -4716 ≤ (j2dateE jd).1 ∧ 1 ≤ (j2dateE jd).2.1 := by
  simp only [j2dateE]
  split_ifs <;> constructor <;> omega

/-- Modelled from the spec (§3, Glossary): the proleptic-Gregorian leap-year
rule used to bound `CalendarDate.day`. -/
def isLeapYear (y : Int) : Prop := y % 4 = 0 ∧ (y % 100 ≠ 0 ∨ y % 400 = 0)

instance (y : Int) : Decidable (isLeapYear y) := by
  unfold isLeapYear; infer_instance

/-- Modelled from the spec (§3): number of days of month `m` of year `y` in
the proleptic Gregorian calendar. -/
def daysInMonth (y m : Int) : Int :=
  if m = 2 then (if isLeapYear y then 29 else 28)
  else if m = 4 ∨ m = 6 ∨ m = 9 ∨ m = 11 then 30 else 31

/-- Modelled from the spec (§3 `CalendarDate`): "month: 1–12, day: 1–31
bounded by month/leap-year". -/
def isValidDate (y m d : Int) : Prop :=
  1 ≤ m ∧ m ≤ 12 ∧ 1 ≤ d ∧ d ≤ daysInMonth y m

instance (y m d : Int) : Decidable (isValidDate y m d) := by
  unfold isValidDate; infer_instance

set_option maxHeartbeats 4000000 in
theorem yearStageMar (yy t : Int) (ht0 : 0 ≤ t) (ht1 : t ≤ 305) :
    j2dateE (365 * yy + yy / 4 - yy / 100 + yy / 100 / 4 + t - 32044) =
      (yy - 4800, ((t + 123) * 2141 / 65536 + 10) % 12 + 1,
        t + 123 - 7834 * ((t + 123) * 2141 / 65536) / 256) := by
  have hQ : yy / 4 = yy / 400 * 100 + yy % 400 / 4 := by omega
  have hC : yy / 100 = yy / 400 * 4 + yy % 400 / 100 := by omega
  have hC4 : yy / 100 / 4 = yy / 400 := by omega
  simp only [j2dateE]
  generalize hK : 365 * yy + yy / 4 - yy / 100 + yy / 100 / 4 + t - 32044 + 32044 = K
  generalize hq : K / 146097 = quad
  generalize hc : ((K - quad * 146097) * 4 + 3) / 146097 = c
  generalize hJ2 : K + 60 + quad * 3 + c = J2
  generalize hq2 : J2 / 1461 = quad2
  generalize hj3 : J2 - quad2 * 1461 = j3
  generalize hy : j3 * 4 / 1461 = y
  have hw : 0 ≤ yy % 400 ∧ yy % 400 ≤ 399 := by omega
  have hbr : 0 ≤ 365 * (yy % 400) + yy % 400 / 4 - yy % 400 / 100 + t ∧
      365 * (yy % 400) + yy % 400 / 4 - yy % 400 / 100 + t ≤ 146036 := by omega
  have hKeq : K = 146097 * (yy / 400) +
      (365 * (yy % 400) + yy % 400 / 4 - yy % 400 / 100 + t) := by omega
  have hquad : quad = yy / 400 := by omega
  have hcw : yy % 400 / 100 = 0 ∨ yy % 400 / 100 = 1 ∨ yy % 400 / 100 = 2 ∨
      yy % 400 / 100 = 3 := by omega
  have hcval : c = yy % 400 / 100 := by
    rcases hcw with h | h | h | h <;> omega
  have hex : 0 ≤ 365 * (yy % 4) + t + 60 ∧ 365 * (yy % 4) + t + 60 ≤ 1460 := by omega
  have hJ2eq : J2 = 1461 * (yy / 400 * 100 + yy % 400 / 4) +
      (365 * (yy % 4) + t + 60) := by omega
  have hq2val : quad2 = yy / 400 * 100 + yy % 400 / 4 := by omega
  have hj3val : j3 = 365 * (yy % 4) + t + 60 := by omega
  have hyval : y = yy % 4 := by omega
  by_cases hcase : y ≠ 0
  · rw [if_pos hcase]
    simp only [Prod.mk.injEq]
    have hM : (j3 + 305) % 365 = t := by omega
    rw [hM]
    exact ⟨by omega, rfl, rfl⟩
  · rw [if_neg hcase]
    simp only [Prod.mk.injEq]
    have hM : (j3 + 306) % 366 = t := by omega
    rw [hM]
    exact ⟨by omega, rfl, rfl⟩

set_option maxHeartbeats 4000000 in
theorem yearStageJF (yy t : Int) (ht0 : 306 ≤ t) (ht1 : t ≤ 365)
    (hleap : t ≤ 364 ∨ (yy % 4 = 3 ∧ (yy % 100 ≠ 99 ∨ yy % 400 = 399))) :
    j2dateE (365 * yy + yy / 4 - yy / 100 + yy / 100 / 4 + t - 32044) =
      (yy - 4799, ((t + 123) * 2141 / 65536 + 10) % 12 + 1,
        t + 123 - 7834 * ((t + 123) * 2141 / 65536) / 256) := by
  have hQ : yy / 4 = yy / 400 * 100 + yy % 400 / 4 := by omega
  have hC : yy / 100 = yy / 400 * 4 + yy % 400 / 100 := by omega
  have hC4 : yy / 100 / 4 = yy / 400 := by omega
  simp only [j2dateE]
  generalize hK : 365 * yy + yy / 4 - yy / 100 + yy / 100 / 4 + t - 32044 + 32044 = K
  generalize hq : K / 146097 = quad
  generalize hc : ((K - quad * 146097) * 4 + 3) / 146097 = c
  generalize hJ2 : K + 60 + quad * 3 + c = J2
  generalize hq2 : J2 / 1461 = quad2
  generalize hj3 : J2 - quad2 * 1461 = j3
  generalize hy : j3 * 4 / 1461 = y
  have hw : 0 ≤ yy % 400 ∧ yy % 400 ≤ 399 := by omega
  have hbr : 0 ≤ 365 * (yy % 400) + yy % 400 / 4 - yy % 400 / 100 + t ∧
      365 * (yy % 400) + yy % 400 / 4 - yy % 400 / 100 + t ≤ 146096 := by omega
  have hKeq : K = 146097 * (yy / 400) +
      (365 * (yy % 400) + yy % 400 / 4 - yy % 400 / 100 + t) := by omega
  have hquad : quad = yy / 400 := by omega
  have hcw : yy % 400 / 100 = 0 ∨ yy % 400 / 100 = 1 ∨ yy % 400 / 100 = 2 ∨
      yy % 400 / 100 = 3 := by omega
  have hcval : c = yy % 400 / 100 := by
    rcases hleap with hl | ⟨h4, h100⟩
    · rcases hcw with h | h | h | h <;> omega
    · rcases h100 with h100 | h100 <;> rcases hcw with h | h | h | h <;> omega
  by_cases hroll : yy % 4 = 3
  · have hex : 1461 ≤ 365 * (yy % 4) + t + 60 ∧ 365 * (yy % 4) + t + 60 ≤ 1520 := by omega
    have hJ2eq : J2 = 1461 * (yy / 400 * 100 + yy % 400 / 4 + 1) + (t - 306) := by omega
    have hq2val : quad2 = yy / 400 * 100 + yy % 400 / 4 + 1 := by omega
    have hj3val : j3 = t - 306 := by omega
    have hyval : y = 0 := by omega
    rw [if_neg (by omega : ¬y ≠ 0)]
    simp only [Prod.mk.injEq]
    have hM : (j3 + 306) % 366 = t := by omega
    rw [hM]
    exact ⟨by omega, rfl, rfl⟩
  · have hex : 366 ≤ 365 * (yy % 4) + t + 60 ∧ 365 * (yy % 4) + t + 60 ≤ 1155 := by omega
    have hJ2eq : J2 = 1461 * (yy / 400 * 100 + yy % 400 / 4) +
        (365 * (yy % 4) + t + 60) := by omega
    have hq2val : quad2 = yy / 400 * 100 + yy % 400 / 4 := by omega
    have hj3val : j3 = 365 * (yy % 4) + t + 60 := by omega
    have hyval : y = yy % 4 + 1 := by omega
    rw [if_pos (by omega : y ≠ 0)]
    simp only [Prod.mk.injEq]
    have ht364 : t ≤ 364 := by
      rcases hleap with hl | ⟨h4, _⟩
      · exact hl
      · omega
    have hM : (j3 + 305) % 365 = t := by omega
    rw [hM]
    exact ⟨by omega, rfl, rfl⟩

set_option maxHeartbeats 4000000 in
theorem roundtrip_calendarE (y m d : Int) (hv : isValidDate y m d) :
    j2dateE (date2jE y m d) = (y, m, d) := by
  obtain ⟨hm1, hm2, hd1, hd2⟩ := hv
  interval_cases m
  · rw [show daysInMonth y 1 = 31 from by simp [daysInMonth]] at hd2
    have harg : date2jE y 1 d =
        365 * (y + 4799) + (y + 4799) / 4 - (y + 4799) / 100 + (y + 4799) / 100 / 4 +
          (d + 305) - 32044 := by
      simp only [date2jE]
      split_ifs <;> omega
    rw [harg, yearStageJF (y + 4799) (d + 305) (by omega) (by omega) (Or.inl (by omega))]
    clear harg
    simp only [Prod.mk.injEq]
    have hq3v : (d + 305 + 123) * 2141 / 65536 = 14 := by
      have hb : 65536 * 14 ≤ (d + 305 + 123) * 2141 ∧ (d + 305 + 123) * 2141 < 65536 * 15 := by
        omega
      omega
    rw [hq3v]
    exact ⟨by omega, by decide, by omega⟩
  · rw [show daysInMonth y 2 = if isLeapYear y then 29 else 28 from by
      simp [daysInMonth]] at hd2
    have harg : date2jE y 2 d =
        365 * (y + 4799) + (y + 4799) / 4 - (y + 4799) / 100 + (y + 4799) / 100 / 4 +
          (d + 336) - 32044 := by
      simp only [date2jE]
      split_ifs <;> omega
    by_cases hly : isLeapYear y
    · rw [if_pos hly] at hd2
      have hly2 : y % 4 = 0 ∧ (y % 100 ≠ 0 ∨ y % 400 = 0) := hly
      have hsnd : (y + 4799) % 100 ≠ 99 ∨ (y + 4799) % 400 = 399 := by
        rcases hly2.2 with h | h
        · exact Or.inl (by omega)
        · exact Or.inr (by omega)
      rw [harg, yearStageJF (y + 4799) (d + 336) (by omega) (by omega)
        (Or.inr ⟨by omega, hsnd⟩)]
      clear harg hly2 hsnd
      simp only [Prod.mk.injEq]
      have hq3v : (d + 336 + 123) * 2141 / 65536 = 15 := by
        have hb : 65536 * 15 ≤ (d + 336 + 123) * 2141 ∧ (d + 336 + 123) * 2141 < 65536 * 16 := by
          omega
        omega
      rw [hq3v]
      exact ⟨by omega, by decide, by omega⟩
    · rw [if_neg hly] at hd2
      rw [harg, yearStageJF (y + 4799) (d + 336) (by omega) (by omega) (Or.inl (by omega))]
      clear harg
      simp only [Prod.mk.injEq]
      have hq3v : (d + 336 + 123) * 2141 / 65536 = 15 := by
        have hb : 65536 * 15 ≤ (d + 336 + 123) * 2141 ∧ (d + 336 + 123) * 2141 < 65536 * 16 := by
          omega
        omega
      rw [hq3v]
      exact ⟨by omega, by decide, by omega⟩
  · rw [show daysInMonth y 3 = 31 from by simp [daysInMonth]] at hd2
    have harg : date2jE y 3 d =
        365 * (y + 4800) + (y + 4800) / 4 - (y + 4800) / 100 + (y + 4800) / 100 / 4 +
          (d - 1) - 32044 := by
      simp only [date2jE]
      split_ifs <;> omega
    rw [harg, yearStageMar (y + 4800) (d - 1) (by omega) (by omega)]
    clear harg
    simp only [Prod.mk.injEq]
    have hq3v : (d - 1 + 123) * 2141 / 65536 = 4 := by
      have hb : 65536 * 4 ≤ (d - 1 + 123) * 2141 ∧ (d - 1 + 123) * 2141 < 65536 * 5 := by
        omega
      omega
    rw [hq3v]
    exact ⟨by omega, by decide, by omega⟩
  · rw [show daysInMonth y 4 = 30 from by simp [daysInMonth]] at hd2
    have harg : date2jE y 4 d =
        365 * (y + 4800) + (y + 4800) / 4 - (y + 4800) / 100 + (y + 4800) / 100 / 4 +
          (d + 30) - 32044 := by
      simp only [date2jE]
      split_ifs <;> omega
    rw [harg, yearStageMar (y + 4800) (d + 30) (by omega) (by omega)]
    clear harg
    simp only [Prod.mk.injEq]
    have hq3v : (d + 30 + 123) * 2141 / 65536 = 5 := by
      have hb : 65536 * 5 ≤ (d + 30 + 123) * 2141 ∧ (d + 30 + 123) * 2141 < 65536 * 6 := by
        omega
      omega
    rw [hq3v]
    exact ⟨by omega, by decide, by omega⟩
  · rw [show daysInMonth y 5 = 31 from by simp [daysInMonth]] at hd2
    have harg : date2jE y 5 d =
        365 * (y + 4800) + (y + 4800) / 4 - (y + 4800) / 100 + (y + 4800) / 100 / 4 +
          (d + 60) - 32044 := by
      simp only [date2jE]
      split_ifs <;> omega
    rw [harg, yearStageMar (y + 4800) (d + 60) (by omega) (by omega)]
    clear harg
    simp only [Prod.mk.injEq]
    have hq3v : (d + 60 + 123) * 2141 / 65536 = 6 := by
      have hb : 65536 * 6 ≤ (d + 60 + 123) * 2141 ∧ (d + 60 + 123) * 2141 < 65536 * 7 := by
        omega
      omega
    rw [hq3v]
    exact ⟨by omega, by decide, by omega⟩
  · rw [show daysInMonth y 6 = 30 from by simp [daysInMonth]] at hd2
    have harg : date2jE y 6 d =
        365 * (y + 4800) + (y + 4800) / 4 - (y + 4800) / 100 + (y + 4800) / 100 / 4 +
          (d + 91) - 32044 := by
      simp only [date2jE]
      split_ifs <;> omega
    rw [harg, yearStageMar (y + 4800) (d + 91) (by omega) (by omega)]
    clear harg
    simp only [Prod.mk.injEq]
    have hq3v : (d + 91 + 123) * 2141 / 65536 = 7 := by
      have hb : 65536 * 7 ≤ (d + 91 + 123) * 2141 ∧ (d + 91 + 123) * 2141 < 65536 * 8 := by
        omega
      omega
    rw [hq3v]
    exact ⟨by omega, by decide, by omega⟩
  · rw [show daysInMonth y 7 = 31 from by simp [daysInMonth]] at hd2
    have harg : date2jE y 7 d =
        365 * (y + 4800) + (y + 4800) / 4 - (y + 4800) / 100 + (y + 4800) / 100 / 4 +
          (d + 121) - 32044 := by
      simp only [date2jE]
      split_ifs <;> omega
    rw [harg, yearStageMar (y + 4800) (d + 121) (by omega) (by omega)]
    clear harg
    simp only [Prod.mk.injEq]
    have hq3v : (d + 121 + 123) * 2141 / 65536 = 8 := by
      have hb : 65536 * 8 ≤ (d + 121 + 123) * 2141 ∧ (d + 121 + 123) * 2141 < 65536 * 9 := by
        omega
      omega
    rw [hq3v]
    exact ⟨by omega, by decide, by omega⟩
  · rw [show daysInMonth y 8 = 31 from by simp [daysInMonth]] at hd2
    have harg : date2jE y 8 d =
        365 * (y + 4800) + (y + 4800) / 4 - (y + 4800) / 100 + (y + 4800) / 100 / 4 +
          (d + 152) - 32044 := by
      simp only [date2jE]
      split_ifs <;> omega
    rw [harg, yearStageMar (y + 4800) (d + 152) (by omega) (by omega)]
    clear harg
    simp only [Prod.mk.injEq]
    have hq3v : (d + 152 + 123) * 2141 / 65536 = 9 := by
      have hb : 65536 * 9 ≤ (d + 152 + 123) * 2141 ∧ (d + 152 + 123) * 2141 < 65536 * 10 := by
        omega
      omega
    rw [hq3v]
    exact ⟨by omega, by decide, by omega⟩
  · rw [show daysInMonth y 9 = 30 from by simp [daysInMonth]] at hd2
    have harg : date2jE y 9 d =
        365 * (y + 4800) + (y + 4800) / 4 - (y + 4800) / 100 + (y + 4800) / 100 / 4 +
          (d + 183) - 32044 := by
      simp only [date2jE]
      split_ifs <;> omega
    rw [harg, yearStageMar (y + 4800) (d + 183) (by omega) (by omega)]
    clear harg
    simp only [Prod.mk.injEq]
    have hq3v : (d + 183 + 123) * 2141 / 65536 = 10 := by
      have hb : 65536 * 10 ≤ (d + 183 + 123) * 2141 ∧ (d + 183 + 123) * 2141 < 65536 * 11 := by
        omega
      omega
    rw [hq3v]
    exact ⟨by omega, by decide, by omega⟩
  · rw [show daysInMonth y 10 = 31 from by simp [daysInMonth]] at hd2
    have harg : date2jE y 10 d =
        365 * (y + 4800) + (y + 4800) / 4 - (y + 4800) / 100 + (y + 4800) / 100 / 4 +
          (d + 213) - 32044 := by
      simp only [date2jE]
      split_ifs <;> omega
    rw [harg, yearStageMar (y + 4800) (d + 213) (by omega) (by omega)]
    clear harg
    simp only [Prod.mk.injEq]
    have hq3v : (d + 213 + 123) * 2141 / 65536 = 11 := by
      have hb : 65536 * 11 ≤ (d + 213 + 123) * 2141 ∧ (d + 213 + 123) * 2141 < 65536 * 12 := by
        omega
      omega
    rw [hq3v]
    exact ⟨by omega, by decide, by omega⟩
  · rw [show daysInMonth y 11 = 30 from by simp [daysInMonth]] at hd2
    have harg : date2jE y 11 d =
        365 * (y + 4800) + (y + 4800) / 4 - (y + 4800) / 100 + (y + 4800) / 100 / 4 +
          (d + 244) - 32044 := by
      simp only [date2jE]
      split_ifs <;> omega
    rw [harg, yearStageMar (y + 4800) (d + 244) (by omega) (by omega)]
    clear harg
    simp only [Prod.mk.injEq]
    have hq3v : (d + 244 + 123) * 2141 / 65536 = 12 := by
      have hb : 65536 * 12 ≤ (d + 244 + 123) * 2141 ∧ (d + 244 + 123) * 2141 < 65536 * 13 := by
        omega
      omega
    rw [hq3v]
    exact ⟨by omega, by decide, by omega⟩
  · rw [show daysInMonth y 12 = 31 from by simp [daysInMonth]] at hd2
    have harg : date2jE y 12 d =
        365 * (y + 4800) + (y + 4800) / 4 - (y + 4800) / 100 + (y + 4800) / 100 / 4 +
          (d + 274) - 32044 := by
      simp only [date2jE]
      split_ifs <;> omega
    rw [harg, yearStageMar (y + 4800) (d + 274) (by omega) (by omega)]
    clear harg
    simp only [Prod.mk.injEq]
    have hq3v : (d + 274 + 123) * 2141 / 65536 = 13 := by
      have hb : 65536 * 13 ≤ (d + 274 + 123) * 2141 ∧ (d + 274 + 123) * 2141 < 65536 * 14 := by
        omega
      omega
    rw [hq3v]
    exact ⟨by omega, by decide, by omega⟩

/-- Claim C1: the date conversions are mutually inverse.  `toCalendar` is the
shim `_SwiftPQ_PGTYPES_date_to_ymd` and `fromCalendar` is
`_SwiftPQ_PGTYPES_date_from_ymd`.  For every in-range `DayCount` (days since
2000-01-01 whose Julian day `dc + 2451545` lies in `[0, 2^31-1]`),
`fromCalendar (toCalendar dc) = dc`; and for every valid proleptic-Gregorian
`CalendarDate` within range, `toCalendar (fromCalendar c) = c`. -/
theorem date_conversions_mutually_inverse :
    (∀ dc : Int, -2451545 ≤ dc → dc ≤ 2145032102 →
      _SwiftPQ_PGTYPES_date_from_ymd (_SwiftPQ_PGTYPES_date_to_ymd dc) = dc) ∧
    (∀ ymd : _SwiftPQ_PGTYPES_YMD, isValidDate ymd.year ymd.month ymd.day →
      -4713 ≤ ymd.year → ymd.year ≤ 5874897 → 0 ≤ date2j ymd.year ymd.month ymd.day →
      _SwiftPQ_PGTYPES_date_to_ymd (_SwiftPQ_PGTYPES_date_from_ymd ymd) = ymd) := by
  have hepoch : date2j 2000 1 1 = 2451545 := by decide
  constructor
  · intro dc h1 h2
    simp only [_SwiftPQ_PGTYPES_date_to_ymd, _SwiftPQ_PGTYPES_date_from_ymd,
      PGTYPESdate_julmdy, PGTYPESdate_mdyjul, hepoch]
    rw [show toInt32 (dc + 2451545) = dc + 2451545 from by unfold toInt32; omega]
    rw [j2date_eq_E _ (by omega)]
    have hb := j2dateE_year_month_bounds (dc + 2451545) (by omega)
    rw [date2j_eq_E ((j2dateE (dc + 2451545)).1) ((j2dateE (dc + 2451545)).2.1)
      ((j2dateE (dc + 2451545)).2.2) (by omega) (by omega)]
    rw [roundtripE (dc + 2451545) (by omega) (by omega)]
    unfold toInt32
    omega
  · intro ymd hv hy1 hy2 hjd
    obtain ⟨yr, mo, da⟩ := ymd
    dsimp only at hv hy1 hy2 hjd ⊢
    obtain ⟨hm1, hm2, hd1, hd2⟩ := hv
    have hdim : daysInMonth yr mo ≤ 31 := by
      unfold daysInMonth
      split_ifs <;> omega
    have hbridge : date2j yr mo da = date2jE yr mo da :=
      date2j_eq_E yr mo da (by omega) (by omega)
    have hub : date2jE yr mo da ≤ 2147483646 := by
      simp only [date2jE]
      split_ifs <;> omega
    have hlb : 0 ≤ date2jE yr mo da := hbridge ▸ hjd
    simp only [_SwiftPQ_PGTYPES_date_to_ymd, _SwiftPQ_PGTYPES_date_from_ymd,
      PGTYPESdate_julmdy, PGTYPESdate_mdyjul, hepoch]
    rw [hbridge]
    rw [show toInt32 (date2jE yr mo da - 2451545) = date2jE yr mo da - 2451545 from by
      unfold toInt32; omega]
    rw [show date2jE yr mo da - 2451545 + 2451545 = date2jE yr mo da from by ring]
    rw [show toInt32 (date2jE yr mo da) = date2jE yr mo da from by unfold toInt32; omega]
    rw [j2date_eq_E _ hlb]
    rw [roundtrip_calendarE yr mo da ⟨hm1, hm2, hd1, hd2⟩]

/-- Concrete witness for `date_conversions_mutually_inverse`: the day count
8780 and the calendar date 2024-01-15 (the spec's §8 scenario pair). -/
theorem date_conversions_mutually_inverse_witness :
    _SwiftPQ_PGTYPES_date_from_ymd (_SwiftPQ_PGTYPES_date_to_ymd 8780) = 8780 ∧
    _SwiftPQ_PGTYPES_date_to_ymd (_SwiftPQ_PGTYPES_date_from_ymd ⟨2024, 1, 15⟩) =
      ⟨2024, 1, 15⟩ :=
  ⟨date_conversions_mutually_inverse.1 8780 (by decide) (by decide),
   date_conversions_mutually_inverse.2 ⟨2024, 1, 15⟩ (by decide) (by decide) (by decide)
     (by decide)⟩

/-! ## Error codes and reference-parser calls

The `pgtypes` error codes live in `pgtypes_error.h`, which is not under the
repository's sources; the values below are modelled from the spec's error
taxonomy (§7).  Only `PGTYPES_TS_BAD_TIMESTAMP` and
`PGTYPES_INTVL_BAD_INTERVAL` are compared against by the shim code itself. -/

def PGTYPES_DATE_BAD_DATE : Int := 310

def PGTYPES_TS_BAD_TIMESTAMP : Int := 320

/-- Modelled from the spec (§4.2): the distinct error indication for
valid-looking but out-of-range timestamp text; only its being different from
`PGTYPES_TS_BAD_TIMESTAMP` matters. -/
def PGTYPES_TS_ERR_EINFTIME : Int := 321

def PGTYPES_INTVL_BAD_INTERVAL : Int := 330

/-- Modelled from the spec (§7 `RangeError`): the error code with which the
reference date parser reports a structurally valid but unrepresentable value;
only its being different from `PGTYPES_DATE_BAD_DATE` matters. -/
def ERANGE : Int := 34

/-- Behavior of a single invocation of a reference `pgtypes` parser (these
parsers are not under src/): the value returned and the effect on the ambient
`errno` (`none` = the parser leaves `errno` unchanged, `some e` = it sets
`errno` to `e`). -/
structure RefCall (α : Type) where
  ret : α
  errnoEffect : Option Int
deriving DecidableEq

/-- Run a reference-parser call against a given ambient `errno`. -/
def runRefCall {α : Type} (c : RefCall α) (e : Int) : α × Int :=
  (c.ret, c.errnoEffect.getD e)

/-- Observable outcome of one of the shim's `…_from_cString` wrappers: the
returned pointer (`none` = `NULL`, `some v` = the non-null `result` pointer
with pointee `v`), the final contents of the caller-supplied `result` buffer,
and the final `errno`. -/
structure ShimResult (α : Type) where
  ret : Option α
  buf : α
  errno : Int
deriving DecidableEq

/-- `_SwiftPQ_PGTYPES_date_from_cString` (CLibECPG/shim.h lines 31-41):
`errno = 0`; run `PGTYPESdate_from_asc`; if `errno != 0` return `NULL`
leaving `*result` untouched, else store the parsed date and return `result`.
`c` is the reference parser's behavior on the given string, `e0` the ambient
`errno` before the call, `buf0` the prior contents of `*result`. -/
def _SwiftPQ_PGTYPES_date_from_cString (c : RefCall Int) (e0 : Int) (buf0 : Int) :
    ShimResult Int :=
  let s := runRefCall c 0
  if s.2 ≠ 0 then ⟨none, buf0, s.2⟩ else ⟨some s.1, s.1, s.2⟩

/-- `_SwiftPQ_PGTYPES_timestamp_from_cString` (CLibECPG/shim.h lines 99-111):
`errno = 0`; run `PGTYPEStimestamp_from_asc`; return `NULL` exactly when
`errno == PGTYPES_TS_BAD_TIMESTAMP`, else store the timestamp and return
`result`. -/
def _SwiftPQ_PGTYPES_timestamp_from_cString (c : RefCall Int) (e0 : Int) (buf0 : Int) :
    ShimResult Int :=
  let s := runRefCall c 0
  if s.2 = PGTYPES_TS_BAD_TIMESTAMP then ⟨none, buf0, s.2⟩ else ⟨some s.1, s.1, s.2⟩

/-- The C struct `_SwiftPQ_PGTYPES_Interval` (CLibECPG/shim.h lines 20-23). -/
structure _SwiftPQ_PGTYPES_Interval where
  time : Int
  month : Int
deriving DecidableEq, Repr

/-- `_SwiftPQ_PGTYPES_interval_from_cString` (CLibECPG/shim.h lines 68-85):
`errno = 0`; run `PGTYPESinterval_from_asc` (which returns a freshly
allocated interval or `NULL`); if `errno == PGTYPES_INTVL_BAD_INTERVAL` or
the raw result is `NULL`, free it if needed and return `NULL` leaving
`*result` untouched; else copy the `time` and `month` fields into `*result`,
free the raw result and return `result`.  (The intermediate allocation is
freed on every path inside the call; the heap is therefore not tracked
here.) -/
def _SwiftPQ_PGTYPES_interval_from_cString (c : RefCall (Option _SwiftPQ_PGTYPES_Interval))
    (e0 : Int) (buf0 : _SwiftPQ_PGTYPES_Interval) : ShimResult _SwiftPQ_PGTYPES_Interval :=
  let s := runRefCall c 0
  if s.2 = PGTYPES_INTVL_BAD_INTERVAL ∨ s.1 = none then ⟨none, buf0, s.2⟩
  else
    match s.1 with
    | some raw => ⟨some ⟨raw.time, raw.month⟩, ⟨raw.time, raw.month⟩, s.2⟩
    | none => ⟨none, buf0, s.2⟩

/-- Modelled from the spec (§4.2, §7): the reference timestamp parser's three
outcome kinds — a parsed timestamp, unrecognized text ("bad timestamp"), or
valid-looking but out-of-range text (overflow). -/
inductive RefTimestampParse where
  | ok (t : Int)
  | bad
  | overflow
deriving DecidableEq

/-- Modelled from the spec: the `RefCall` behavior of
`PGTYPEStimestamp_from_asc` for each outcome kind: failures set `errno`
(`320` for unrecognized text, the distinct `321` for overflow) and return the
`noresult` placeholder `0`; success leaves `errno` alone. -/
def timestampRefCall : RefTimestampParse → RefCall Int
  | RefTimestampParse.ok t => ⟨t, none⟩
  | RefTimestampParse.bad => ⟨0, some PGTYPES_TS_BAD_TIMESTAMP⟩
  | RefTimestampParse.overflow => ⟨0, some PGTYPES_TS_ERR_EINFTIME⟩

/-- Modelled from the spec (§7): the reference date parser's outcome kinds —
a parsed day count, a grammar failure (`ParseError`), or a structurally valid
value not representable in the 32-bit day count (`RangeError`). -/
inductive RefDateParse where
  | ok (d : Int)
  | parseError
  | rangeError
deriving DecidableEq

/-- Modelled from the spec: the `RefCall` behavior of `PGTYPESdate_from_asc`
for each outcome kind. -/
def dateRefCall : RefDateParse → RefCall Int
  | RefDateParse.ok d => ⟨d, none⟩
  | RefDateParse.parseError => ⟨0, some PGTYPES_DATE_BAD_DATE⟩
  | RefDateParse.rangeError => ⟨0, some ERANGE⟩

/-- Modelled from the spec (§4.3): the reference interval parser's outcome
kinds — a freshly allocated interval, or a failure ("bad interval": grammar
not matched or a component overflowing its target width). -/
inductive RefIntervalParse where
  | ok (iv : _SwiftPQ_PGTYPES_Interval)
  | bad
deriving DecidableEq

/-- Modelled from the spec: the `RefCall` behavior of
`PGTYPESinterval_from_asc` for each outcome kind. -/
def intervalRefCall : RefIntervalParse → RefCall (Option _SwiftPQ_PGTYPES_Interval)
  | RefIntervalParse.ok iv => ⟨some iv, none⟩
  | RefIntervalParse.bad => ⟨none, some PGTYPES_INTVL_BAD_INTERVAL⟩

/-- Claim C2: the timestamp parse wrapper fails — returns `NULL` — exactly
for unrecognized input text (the reference parser's "bad timestamp" outcome),
and that failure is distinguishable in the observable result from the
overflow outcome for valid-looking but out-of-range text: the final `errno`
is `PGTYPES_TS_BAD_TIMESTAMP` exactly in the first case and the distinct
`PGTYPES_TS_ERR_EINFTIME` exactly in the second. -/
theorem timestamp_parse_error_classification :
    ∀ (p : RefTimestampParse) (e0 buf0 : Int),
      ((_SwiftPQ_PGTYPES_timestamp_from_cString (timestampRefCall p) e0 buf0).ret = none ↔
        p = RefTimestampParse.bad) ∧
      ((_SwiftPQ_PGTYPES_timestamp_from_cString (timestampRefCall p) e0 buf0).errno =
          PGTYPES_TS_BAD_TIMESTAMP ↔ p = RefTimestampParse.bad) ∧
      ((_SwiftPQ_PGTYPES_timestamp_from_cString (timestampRefCall p) e0 buf0).errno =
          PGTYPES_TS_ERR_EINFTIME ↔ p = RefTimestampParse.overflow) := by
  intro p e0 buf0
  cases p <;>
    simp [_SwiftPQ_PGTYPES_timestamp_from_cString, timestampRefCall, runRefCall,
      PGTYPES_TS_BAD_TIMESTAMP, PGTYPES_TS_ERR_EINFTIME]

/-- Claim C3: for the date decode operation, the `RangeError` outcome is
distinct from the `ParseError` outcome: both return `NULL`, but the final
`errno` tells the caller which of the two occurred (`PGTYPES_DATE_BAD_DATE`
vs the range code), and these codes differ. -/
theorem date_decode_error_kinds_distinct :
    ∀ (e0 buf0 : Int),
      (_SwiftPQ_PGTYPES_date_from_cString (dateRefCall RefDateParse.parseError) e0 buf0).ret =
        none ∧
      (_SwiftPQ_PGTYPES_date_from_cString (dateRefCall RefDateParse.rangeError) e0 buf0).ret =
        none ∧
      (_SwiftPQ_PGTYPES_date_from_cString (dateRefCall RefDateParse.parseError) e0
        buf0).errno = PGTYPES_DATE_BAD_DATE ∧
      (_SwiftPQ_PGTYPES_date_from_cString (dateRefCall RefDateParse.rangeError) e0
        buf0).errno = ERANGE ∧
      PGTYPES_DATE_BAD_DATE ≠ ERANGE := by
  intro e0 buf0
  refine ⟨?_, ?_, ?_, ?_, by decide⟩ <;>
    simp [_SwiftPQ_PGTYPES_date_from_cString, dateRefCall, runRefCall,
      PGTYPES_DATE_BAD_DATE, ERANGE]

/-- Claim C4: every parse wrapper is atomic on failure: whenever it returns
the error indication (`NULL`), the caller-supplied output buffer is left
entirely unmodified, and on success (non-null return) the buffer holds
exactly the one returned value — for every possible reference-parser
behavior. -/
theorem parse_failure_atomicity :
    (∀ (c : RefCall Int) (e0 buf0 : Int),
      ((_SwiftPQ_PGTYPES_date_from_cString c e0 buf0).ret = none →
        (_SwiftPQ_PGTYPES_date_from_cString c e0 buf0).buf = buf0) ∧
      (∀ v, (_SwiftPQ_PGTYPES_date_from_cString c e0 buf0).ret = some v →
        (_SwiftPQ_PGTYPES_date_from_cString c e0 buf0).buf = v)) ∧
    (∀ (c : RefCall Int) (e0 buf0 : Int),
      ((_SwiftPQ_PGTYPES_timestamp_from_cString c e0 buf0).ret = none →
        (_SwiftPQ_PGTYPES_timestamp_from_cString c e0 buf0).buf = buf0) ∧
      (∀ v, (_SwiftPQ_PGTYPES_timestamp_from_cString c e0 buf0).ret = some v →
        (_SwiftPQ_PGTYPES_timestamp_from_cString c e0 buf0).buf = v)) ∧
    (∀ (c : RefCall (Option _SwiftPQ_PGTYPES_Interval)) (e0 : Int)
        (buf0 : _SwiftPQ_PGTYPES_Interval),
      ((_SwiftPQ_PGTYPES_interval_from_cString c e0 buf0).ret = none →
        (_SwiftPQ_PGTYPES_interval_from_cString c e0 buf0).buf = buf0) ∧
      (∀ v, (_SwiftPQ_PGTYPES_interval_from_cString c e0 buf0).ret = some v →
        (_SwiftPQ_PGTYPES_interval_from_cString c e0 buf0).buf = v)) := by
  refine ⟨fun c e0 buf0 => ?_, fun c e0 buf0 => ?_, fun c e0 buf0 => ?_⟩
  · simp only [_SwiftPQ_PGTYPES_date_from_cString, runRefCall]
    split_ifs <;> constructor <;> intros <;> simp_all
  · simp only [_SwiftPQ_PGTYPES_timestamp_from_cString, runRefCall]
    split_ifs <;> constructor <;> intros <;> simp_all
  · rcases c with ⟨cr, ce⟩
    rcases cr with _ | raw <;>
      simp only [_SwiftPQ_PGTYPES_interval_from_cString, runRefCall] <;>
      split_ifs <;> constructor <;> intros <;> simp_all

/-- Witness for `parse_failure_atomicity` at a failing parse (`errno` set to
310) with prior buffer contents 7: the buffer is untouched. -/
theorem parse_failure_atomicity_witness :
    (_SwiftPQ_PGTYPES_date_from_cString ⟨0, some 310⟩ 5 7).buf = 7 :=
  (parse_failure_atomicity.1 ⟨0, some 310⟩ 5 7).1 (by decide)

/-- Claim C6: the interval parse wrapper fails — returns `NULL` — precisely
when the reference parser reports "bad interval" (grammar not matched or a
component overflow); otherwise it returns an interval whose `time`
(microseconds) and `month` fields equal those produced by the reference
parser. -/
theorem interval_parse_classification :
    ∀ (p : RefIntervalParse) (e0 : Int) (buf0 : _SwiftPQ_PGTYPES_Interval),
      ((_SwiftPQ_PGTYPES_interval_from_cString (intervalRefCall p) e0 buf0).ret = none ↔
        p = RefIntervalParse.bad) ∧
      (∀ iv, p = RefIntervalParse.ok iv →
        (_SwiftPQ_PGTYPES_interval_from_cString (intervalRefCall p) e0 buf0).ret =
          some ⟨iv.time, iv.month⟩) := by
  intro p e0 buf0
  cases p <;>
    simp [_SwiftPQ_PGTYPES_interval_from_cString, intervalRefCall, runRefCall,
      PGTYPES_INTVL_BAD_INTERVAL]

/-- Witness for `interval_parse_classification` at a successful parse of the
interval `{time := 123, month := 4}`. -/
theorem interval_parse_classification_witness :
    (_SwiftPQ_PGTYPES_interval_from_cString
        (intervalRefCall (RefIntervalParse.ok ⟨123, 4⟩)) 0 ⟨0, 0⟩).ret = some ⟨123, 4⟩ :=
  (interval_parse_classification (RefIntervalParse.ok ⟨123, 4⟩) 0 ⟨0, 0⟩).2 ⟨123, 4⟩ rfl

/-- Claim C10: each parse wrapper resets `errno` to zero before invoking the
reference parser (shim.h lines 33, 72 and 103), so the whole observable
outcome — returned pointer, buffer contents and final `errno` — is
independent of the ambient `errno` left by earlier calls: two runs on the
same input give the same result. -/
theorem parse_results_independent_of_prior_errno :
    ∀ (e0 e0' : Int),
      (∀ (c : RefCall Int) (buf0 : Int),
        _SwiftPQ_PGTYPES_date_from_cString c e0 buf0 =
          _SwiftPQ_PGTYPES_date_from_cString c e0' buf0) ∧
      (∀ (c : RefCall Int) (buf0 : Int),
        _SwiftPQ_PGTYPES_timestamp_from_cString c e0 buf0 =
          _SwiftPQ_PGTYPES_timestamp_from_cString c e0' buf0) ∧
      (∀ (c : RefCall (Option _SwiftPQ_PGTYPES_Interval))
          (buf0 : _SwiftPQ_PGTYPES_Interval),
        _SwiftPQ_PGTYPES_interval_from_cString c e0 buf0 =
          _SwiftPQ_PGTYPES_interval_from_cString c e0' buf0) :=
  fun _ _ => ⟨fun _ _ => rfl, fun _ _ => rfl, fun _ _ => rfl⟩

/-! ## Numeric sign predicates and configuration accessors
(`Sources/CPostgreSQL/shim.c`) -/

/-- Modelled from the spec (§4.4, Design Notes): `NUMERIC_POS` (`0x0000`)
from `pgtypes_numeric.h`, which is not under src/. -/
def NUMERIC_POS : Int := 0

/-- Modelled from the spec: `NUMERIC_NEG` (`0x4000`). -/
def NUMERIC_NEG : Int := 16384

/-- Modelled from the spec: `NUMERIC_NAN` (`0xC000`). -/
def NUMERIC_NAN : Int := 49152

/-- `_SwiftPQ_numericSignIsPositive` (CPostgreSQL/shim.c lines 21-23):
`return (flag == NUMERIC_POS) ? true : false;`. -/
def _SwiftPQ_numericSignIsPositive (flag : Int) : Bool :=
  if flag = NUMERIC_POS then true else false

/-- `_SwiftPQ_numericSignIsNegative` (CPostgreSQL/shim.c lines 25-27). -/
def _SwiftPQ_numericSignIsNegative (flag : Int) : Bool :=
  if flag = NUMERIC_NEG then true else false

/-- `_SwiftPQ_numericSignIsNaN` (CPostgreSQL/shim.c lines 29-31). -/
def _SwiftPQ_numericSignIsNaN (flag : Int) : Bool :=
  if flag = NUMERIC_NAN then true else false

/-- Claim C5: on each of the three valid sign tags, exactly one of the three
predicates `isPositive`, `isNegative`, `isNaN` returns `true`; the predicates
are pairwise disjoint on valid tags. -/
theorem numeric_sign_predicates_exclusive (flag : Int)
    (h : flag = NUMERIC_POS ∨ flag = NUMERIC_NEG ∨ flag = NUMERIC_NAN) :
    (_SwiftPQ_numericSignIsPositive flag = true ∧
      _SwiftPQ_numericSignIsNegative flag = false ∧
      _SwiftPQ_numericSignIsNaN flag = false) ∨
    (_SwiftPQ_numericSignIsPositive flag = false ∧
      _SwiftPQ_numericSignIsNegative flag = true ∧
      _SwiftPQ_numericSignIsNaN flag = false) ∨
    (_SwiftPQ_numericSignIsPositive flag = false ∧
      _SwiftPQ_numericSignIsNegative flag = false ∧
      _SwiftPQ_numericSignIsNaN flag = true) := by
  rcases h with rfl | rfl | rfl
  · exact Or.inl (by decide)
  · exact Or.inr (Or.inl (by decide))
  · exact Or.inr (Or.inr (by decide))

/-- Witness for `numeric_sign_predicates_exclusive` at the valid tag
`NUMERIC_NEG = 0x4000`. -/
theorem numeric_sign_predicates_exclusive_witness :
    (_SwiftPQ_numericSignIsPositive 16384 = true ∧
      _SwiftPQ_numericSignIsNegative 16384 = false ∧
      _SwiftPQ_numericSignIsNaN 16384 = false) ∨
    (_SwiftPQ_numericSignIsPositive 16384 = false ∧
      _SwiftPQ_numericSignIsNegative 16384 = true ∧
      _SwiftPQ_numericSignIsNaN 16384 = false) ∨
    (_SwiftPQ_numericSignIsPositive 16384 = false ∧
      _SwiftPQ_numericSignIsNegative 16384 = false ∧
      _SwiftPQ_numericSignIsNaN 16384 = true) :=
  numeric_sign_predicates_exclusive 16384 (Or.inr (Or.inl (by decide)))

/-- Claim C9: on every tag that is none of the three named constants, all
three predicates return `false`; and no integer tag whatsoever makes two of
the predicates return `true` at once. -/
theorem numeric_sign_predicates_invalid_tags :
    ∀ flag : Int,
      (flag ≠ NUMERIC_POS → flag ≠ NUMERIC_NEG → flag ≠ NUMERIC_NAN →
        _SwiftPQ_numericSignIsPositive flag = false ∧
        _SwiftPQ_numericSignIsNegative flag = false ∧
        _SwiftPQ_numericSignIsNaN flag = false) ∧
      ¬(_SwiftPQ_numericSignIsPositive flag = true ∧
        _SwiftPQ_numericSignIsNegative flag = true) ∧
      ¬(_SwiftPQ_numericSignIsPositive flag = true ∧
        _SwiftPQ_numericSignIsNaN flag = true) ∧
      ¬(_SwiftPQ_numericSignIsNegative flag = true ∧
        _SwiftPQ_numericSignIsNaN flag = true) := by
  intro flag
  refine ⟨fun h1 h2 h3 => ?_, ?_, ?_, ?_⟩
  · simp only [_SwiftPQ_numericSignIsPositive, _SwiftPQ_numericSignIsNegative,
      _SwiftPQ_numericSignIsNaN]
    rw [if_neg h1, if_neg h2, if_neg h3]
    exact ⟨rfl, rfl, rfl⟩
  all_goals
    simp only [_SwiftPQ_numericSignIsPositive, _SwiftPQ_numericSignIsNegative,
      _SwiftPQ_numericSignIsNaN, NUMERIC_POS, NUMERIC_NEG, NUMERIC_NAN]
    split_ifs <;> simp_all

/-- Witness for `numeric_sign_predicates_invalid_tags` at the invalid tag
5. -/
theorem numeric_sign_predicates_invalid_tags_witness :
    _SwiftPQ_numericSignIsPositive 5 = false ∧
    _SwiftPQ_numericSignIsNegative 5 = false ∧
    _SwiftPQ_numericSignIsNaN 5 = false :=
  (numeric_sign_predicates_invalid_tags 5).1 (by decide) (by decide) (by decide)

/-- The build-time PostgreSQL configuration (`pg_config_manual.h` /
`pg_config.h`, not under src/): `FLOAT8PASSBYVAL` and `NAMEDATALEN` are
macros fixed at build time, hence fixed for the process lifetime. -/
structure PGBuildConfig where
  float8PassByVal : Bool
  nameDataLen : Int
deriving DecidableEq

/-- Ambient process state as observable by the shim layer: the C `errno` and
a count of codec calls performed so far.  The configuration accessors read
none of it. -/
structure ProcessState where
  errno : Int
  codecCallCount : Nat
deriving DecidableEq

/-- `_SwiftPQ_get_FLOAT8PASSBYVAL` (CPostgreSQL/shim.c lines 13-15): returns
the macro constant `FLOAT8PASSBYVAL`; the function body reads no mutable
state, which the embedding makes explicit by passing the process state as an
ignored argument. -/
def _SwiftPQ_get_FLOAT8PASSBYVAL (cfg : PGBuildConfig) (s : ProcessState) : Bool :=
  cfg.float8PassByVal

/-- `_SwiftPQ_get_NAMEDATALEN` (CPostgreSQL/shim.c lines 17-19): returns the
macro constant `NAMEDATALEN`. -/
def _SwiftPQ_get_NAMEDATALEN (cfg : PGBuildConfig) (s : ProcessState) : Int :=
  cfg.nameDataLen

/-- Claim C7: the two process-wide configuration accessors are constant
functions: for a fixed build configuration, every call returns the same value
regardless of the process state (in particular of any prior codec calls). -/
theorem config_accessors_constant :
    ∀ (cfg : PGBuildConfig) (s1 s2 : ProcessState),
      _SwiftPQ_get_FLOAT8PASSBYVAL cfg s1 = _SwiftPQ_get_FLOAT8PASSBYVAL cfg s2 ∧
      _SwiftPQ_get_NAMEDATALEN cfg s1 = _SwiftPQ_get_NAMEDATALEN cfg s2 :=
  fun _ _ _ => ⟨rfl, rfl⟩

/-! ## Scratch-buffer scoping of the formatting operations

The heap of `pgtypes`-allocated buffers is modelled as the list of live
buffer identifiers together with a fresh-identifier counter. -/

structure Heap where
  live : List Nat
  next : Nat
deriving DecidableEq

/-- A fresh allocation by the `pgtypes` library (e.g. inside
`PGTYPESdate_to_asc` or by `PGTYPESinterval_new`). -/
def pgtypesAlloc (h : Heap) : Nat × Heap :=
  (h.next, ⟨h.next :: h.live, h.next + 1⟩)

/-- Release of a `pgtypes` buffer (`PGTYPESchar_free` / `PGTYPESinterval_free`
/ `free`). -/
def pgtypesFree (h : Heap) (id : Nat) : Heap :=
  ⟨h.live.erase id, h.next⟩

/-- `_SwiftPQ_PGTYPES_date_to_cString` (CLibECPG/shim.h lines 60-66): returns
the C string freshly allocated by `PGTYPESdate_to_asc` — the raw buffer
crosses the shim boundary and it is the caller that must free it. -/
def _SwiftPQ_PGTYPES_date_to_cString (pgDate : Int) (h : Heap) : Nat × Heap :=
  pgtypesAlloc h

/-- `_SwiftPQ_PGTYPES_timestamp_to_cString` (CLibECPG/shim.h lines 113-115):
returns the C string freshly allocated by `PGTYPEStimestamp_to_asc`. -/
def _SwiftPQ_PGTYPES_timestamp_to_cString (ts : Int) (h : Heap) : Nat × Heap :=
  pgtypesAlloc h

/-- `_SwiftPQ_PGTYPES_free_cString` (CLibECPG/shim.h lines 64-66): calls
`PGTYPESchar_free`. -/
def _SwiftPQ_PGTYPES_free_cString (h : Heap) (buf : Nat) : Heap :=
  pgtypesFree h buf

/-- `_SwiftPQ_PGTYPES_interval_to_cString` (CLibECPG/shim.h lines 87-96):
allocates a scratch `interval` via `PGTYPESinterval_new`, formats it into a
freshly allocated C string via `PGTYPESinterval_to_asc`, frees the scratch
`interval`, and returns the C string buffer. -/
def _SwiftPQ_PGTYPES_interval_to_cString (iv : _SwiftPQ_PGTYPES_Interval) (h : Heap) :
    Nat × Heap :=
  let a1 := pgtypesAlloc h
  let a2 := pgtypesAlloc a1.2
  (a2.1, pgtypesFree a2.2 a1.1)

/-- Modelled from the spec (§4.1, §9 Design Notes): the codec-level `format`
operation for dates — not under src/ — acquires the formatted C string
through the shim, copies it into an owned value, and releases the buffer via
`_SwiftPQ_PGTYPES_free_cString` before returning; the returned value (the
formatted day count, text content out of scope) is never the raw buffer. -/
def DateCodec_format (pgDate : Int) (h : Heap) : Int × Heap :=
  let r := _SwiftPQ_PGTYPES_date_to_cString pgDate h
  (pgDate, _SwiftPQ_PGTYPES_free_cString r.2 r.1)

/-- Modelled from the spec (§4.2): the codec-level `format` operation for
timestamps, with the same scoped acquisition discipline. -/
def TimestampCodec_format (ts : Int) (h : Heap) : Int × Heap :=
  let r := _SwiftPQ_PGTYPES_timestamp_to_cString ts h
  (ts, _SwiftPQ_PGTYPES_free_cString r.2 r.1)

/-- Modelled from the spec (§4.3): the codec-level `format` operation for
intervals, with the same scoped acquisition discipline. -/
def IntervalCodec_format (iv : _SwiftPQ_PGTYPES_Interval) (h : Heap) :
    _SwiftPQ_PGTYPES_Interval × Heap :=
  let r := _SwiftPQ_PGTYPES_interval_to_cString iv h
  (iv, _SwiftPQ_PGTYPES_free_cString r.2 r.1)

/-- Claim C8: every formatting operation (date-to-text, timestamp-to-text,
interval-to-text) acquires its scratch buffers inside the call and releases
them before returning: the set of live buffers after the call equals the set
before it, so buffer ownership never crosses the call boundary (and the
returned value is an owned value, not a buffer identifier). -/
theorem format_buffer_scoped :
    ∀ (h : Heap) (d ts : Int) (iv : _SwiftPQ_PGTYPES_Interval),
      (DateCodec_format d h).2.live = h.live ∧
      (TimestampCodec_format ts h).2.live = h.live ∧
      (IntervalCodec_format iv h).2.live = h.live := by
  intro h d ts iv
  refine ⟨?_, ?_, ?_⟩
  · simp [DateCodec_format, _SwiftPQ_PGTYPES_date_to_cString,
      _SwiftPQ_PGTYPES_free_cString, pgtypesAlloc, pgtypesFree]
  · simp [TimestampCodec_format, _SwiftPQ_PGTYPES_timestamp_to_cString,
      _SwiftPQ_PGTYPES_free_cString, pgtypesAlloc, pgtypesFree]
  · simp only [IntervalCodec_format, _SwiftPQ_PGTYPES_interval_to_cString,
      _SwiftPQ_PGTYPES_free_cString, pgtypesAlloc, pgtypesFree]
    rw [List.erase_cons_tail, List.erase_cons_head, List.erase_cons_head]
    simp
